import Mathlib

/-!
Verification of the Sphinx-generated search index `searchindex.js` of the
artellapipe launcher documentation site.  The file's single statement is
`Search.setIndex({...})`; the argument is a JavaScript object literal holding
the index: `docnames`, `envversion`, `filenames`, `objects`, `objnames`,
`objtypes`, `terms`, `titles`, `titleterms`.  The definitions below transcribe
that object field by field; `payloadText` is the argument's exact source text.
-/

set_option maxRecDepth 200000

set_option maxHeartbeats 4000000

/-- A posting in `terms`/`titleterms`: in the source a value is either a single
document ID (e.g. `as_path:3`) or a list of document IDs (e.g. `fals:[1,3]`). -/
inductive Posting where
  | one (d : Nat)
  | many (ds : List Nat)
deriving DecidableEq, Repr

/-- An entry of the `objects` map: in the source each documented object is a
four-element array `[docId, objType, priority, anchor]`, e.g. `edit:[3,3,1,""]`. -/
structure ObjEntry where
  docId : Nat
  objType : Nat
  priority : Nat
  anchor : String
deriving DecidableEq, Repr

def docnames : List String := ["artellapipe", "artellapipe.launcher", "artellapipe.launcher.core", "artellapipe.launcher.core.config", "artellapipe.launcher.core.dccselector", "artellapipe.launcher.core.defines", "artellapipe.launcher.core.launcher", "artellapipe.launcher.core.updater", "artellapipe.launcher.dccs", "artellapipe.launcher.dccs.houdinidcc", "artellapipe.launcher.dccs.mayadcc", "artellapipe.launcher.dccs.nukedcc", "artellapipe.launcher.dccs.photoshopdcc", "artellapipe.launcher.dccs.substancedesignerdcc", "artellapipe.launcher.dccs.substancepainterdcc", "artellapipe.launcher.dccs.zbrushdcc", "artellapipe.launcher.utils", "artellapipe.launcher.utils.download", "artellapipe.launcher.widgets", "artellapipe.launcher.widgets.console", "index", "modules"]

def envversion : List (String × Nat) := [("sphinx.domains.c", 1), ("sphinx.domains.changeset", 1), ("sphinx.domains.citation", 1), ("sphinx.domains.cpp", 1), ("sphinx.domains.javascript", 1), ("sphinx.domains.math", 2), ("sphinx.domains.python", 1), ("sphinx.domains.rst", 1), ("sphinx.domains.std", 1), ("sphinx.ext.todo", 2), ("sphinx", 56)]

def filenames : List String := ["artellapipe.rst", "artellapipe.launcher.rst", "artellapipe.launcher.core.rst", "artellapipe.launcher.core.config.rst", "artellapipe.launcher.core.dccselector.rst", "artellapipe.launcher.core.defines.rst", "artellapipe.launcher.core.launcher.rst", "artellapipe.launcher.core.updater.rst", "artellapipe.launcher.dccs.rst", "artellapipe.launcher.dccs.houdinidcc.rst", "artellapipe.launcher.dccs.mayadcc.rst", "artellapipe.launcher.dccs.nukedcc.rst", "artellapipe.launcher.dccs.photoshopdcc.rst", "artellapipe.launcher.dccs.substancedesignerdcc.rst", "artellapipe.launcher.dccs.substancepainterdcc.rst", "artellapipe.launcher.dccs.zbrushdcc.rst", "artellapipe.launcher.utils.rst", "artellapipe.launcher.utils.download.rst", "artellapipe.launcher.widgets.rst", "artellapipe.launcher.widgets.console.rst", "index.rst", "modules.rst"]

def objects : List (String × List (String × ObjEntry)) := [
  ("", [("artellapipe", ObjEntry.mk 0 0 0 "-")]),
  ("artellapipe.launcher", [("core", ObjEntry.mk 2 0 0 "-"), ("create_logger_directory", ObjEntry.mk 1 4 1 ""), ("dccs", ObjEntry.mk 8 0 0 "-"), ("get_dccs_path", ObjEntry.mk 1 4 1 ""), ("get_launcher_config_path", ObjEntry.mk 1 4 1 ""), ("get_logging_config", ObjEntry.mk 1 4 1 ""), ("get_updater_config_path", ObjEntry.mk 1 4 1 ""), ("init", ObjEntry.mk 1 4 1 ""), ("update_paths", ObjEntry.mk 1 4 1 ""), ("utils", ObjEntry.mk 16 0 0 "-"), ("widgets", ObjEntry.mk 18 0 0 "-")]),
  ("artellapipe.launcher.core", [("config", ObjEntry.mk 3 0 0 "-"), ("defines", ObjEntry.mk 5 0 0 "-")]),
  ("artellapipe.launcher.core.config", [("ArtellaLauncherConfig", ObjEntry.mk 3 1 1 ""), ("create_config", ObjEntry.mk 3 4 1 ""), ("get_system_config_directory", ObjEntry.mk 3 4 1 "")]),
  ("artellapipe.launcher.core.config.ArtellaLauncherConfig", [("ENVIRONMENTS", ObjEntry.mk 3 2 1 ""), ("EXECUTABLES", ObjEntry.mk 3 2 1 ""), ("edit", ObjEntry.mk 3 3 1 ""), ("staticMetaObject", ObjEntry.mk 3 2 1 "")]),
  ("artellapipe.launcher.dccs", [("nukedcc", ObjEntry.mk 11 0 0 "-"), ("photoshopdcc", ObjEntry.mk 12 0 0 "-"), ("substancedesignerdcc", ObjEntry.mk 13 0 0 "-"), ("substancepainterdcc", ObjEntry.mk 14 0 0 "-"), ("zbrushdcc", ObjEntry.mk 15 0 0 "-")]),
  ("artellapipe.launcher.dccs.nukedcc", [("get_executables_from_installation_path", ObjEntry.mk 11 4 1 ""), ("get_installation_paths", ObjEntry.mk 11 4 1 "")]),
  ("artellapipe.launcher.dccs.photoshopdcc", [("get_executables_from_installation_path", ObjEntry.mk 12 4 1 ""), ("get_installation_paths", ObjEntry.mk 12 4 1 "")]),
  ("artellapipe.launcher.dccs.substancedesignerdcc", [("get_executables_from_installation_path", ObjEntry.mk 13 4 1 ""), ("get_installation_paths", ObjEntry.mk 13 4 1 "")]),
  ("artellapipe.launcher.dccs.substancepainterdcc", [("get_executables_from_installation_path", ObjEntry.mk 14 4 1 ""), ("get_installation_paths", ObjEntry.mk 14 4 1 "")]),
  ("artellapipe.launcher.dccs.zbrushdcc", [("get_executables_from_installation_path", ObjEntry.mk 15 4 1 ""), ("get_installation_paths", ObjEntry.mk 15 4 1 "")]),
  ("artellapipe.launcher.widgets", [("console", ObjEntry.mk 19 0 0 "-")]),
  ("artellapipe.launcher.widgets.console", [("ArtellaLauncherConsole", ObjEntry.mk 19 1 1 "")]),
  ("artellapipe.launcher.widgets.console.ArtellaLauncherConsole", [("output_buffer_to_file", ObjEntry.mk 19 3 1 ""), ("set_debug_level", ObjEntry.mk 19 3 1 ""), ("set_info_level", ObjEntry.mk 19 3 1 ""), ("staticMetaObject", ObjEntry.mk 19 2 1 ""), ("write", ObjEntry.mk 19 3 1 ""), ("write_error", ObjEntry.mk 19 3 1 ""), ("write_ok", ObjEntry.mk 19 3 1 "")]),
  ("artellapipe", [("launcher", ObjEntry.mk 1 0 0 "-")])]

def objnames : List (String × (String × String × String)) := [("0", ("py", "module", "Python module")), ("1", ("py", "class", "Python class")), ("2", ("py", "attribute", "Python attribute")), ("3", ("py", "method", "Python method")), ("4", ("py", "function", "Python function"))]

def objtypes : List (String × String) := [("0", "py:module"), ("1", "py:class"), ("2", "py:attribute"), ("3", "py:method"), ("4", "py:function")]

def terms : List (String × Posting) := [
  ("class", Posting.many [3, 19]),
  ("default", Posting.many [1, 3]),
  ("function", Posting.many [11, 12, 13, 14, 15]),
  ("new", Posting.one 19),
  ("return", Posting.many [1, 3, 11, 12, 13, 14, 15]),
  ("add", Posting.many [1, 19]),
  ("all", Posting.one 5),
  ("applic", Posting.one 3),
  ("artella", Posting.many [1, 3, 19]),
  ("artellalauncherconfig", Posting.one 3),
  ("artellalauncherconsol", Posting.one 19),
  ("as_path", Posting.one 3),
  ("base", Posting.many [3, 19]),
  ("bool", Posting.one 1),
  ("buffer", Posting.one 19),
  ("comput", Posting.one 12),
  ("config", Posting.many [0, 1, 2]),
  ("config_fil", Posting.one 3),
  ("configur", Posting.many [1, 3]),
  ("consol", Posting.many [0, 1, 3, 18]),
  ("constant", Posting.one 5),
  ("construct", Posting.one 3),
  ("contain", Posting.many [3, 5, 11, 12, 13, 14, 15, 19]),
  ("content", Posting.many [20, 21]),
  ("core", Posting.many [0, 1]),
  ("creat", Posting.many [1, 3]),
  ("create_config", Posting.one 3),
  ("create_logger_directori", Posting.one 1),
  ("dcc", Posting.many [0, 1]),
  ("dcc_install_path", Posting.one 3),
  ("dccselector", Posting.many [0, 1, 2]),
  ("debug", Posting.one 19),
  ("defin", Posting.many [0, 1, 2]),
  ("definit", Posting.one 5),
  ("design", Posting.one 13),
  ("designer_vers", Posting.one 13),
  ("directori", Posting.many [1, 3]),
  ("do_reload", Posting.one 1),
  ("download", Posting.many [0, 1, 16]),
  ("edit", Posting.one 3),
  ("element", Posting.one 3),
  ("environ", Posting.one 3),
  ("error", Posting.one 19),
  ("execut", Posting.many [3, 11, 12, 13, 14, 15]),
  ("fals", Posting.many [1, 3]),
  ("file", Posting.many [1, 3, 19]),
  ("filenam", Posting.one 3),
  ("filepath", Posting.one 19),
  ("folder", Posting.many [11, 12, 13, 14, 15]),
  ("from", Posting.many [3, 11, 12, 13, 14, 15]),
  ("get_dccs_path", Posting.one 1),
  ("get_executables_from_installation_path", Posting.many [11, 12, 13, 14, 15]),
  ("get_installation_path", Posting.many [11, 12, 13, 14, 15]),
  ("get_launcher_config_path", Posting.one 1),
  ("get_logging_config", Posting.one 1),
  ("get_system_config_directori", Posting.one 3),
  ("get_updater_config_path", Posting.one 1),
  ("green", Posting.one 19),
  ("handl", Posting.many [11, 12, 13, 14, 15]),
  ("houdinidcc", Posting.many [0, 1, 8]),
  ("implement", Posting.many [3, 19]),
  ("index", Posting.one 20),
  ("info", Posting.one 19),
  ("init", Posting.one 1),
  ("initi", Posting.many [0, 1]),
  ("instal", Posting.many [11, 12, 13, 14, 15]),
  ("installation_path", Posting.many [11, 12, 13, 14, 15]),
  ("its", Posting.many [11, 12, 13, 14, 15]),
  ("launcher", Posting.many [0, 21]),
  ("launcher_nam", Posting.one 3),
  ("level", Posting.one 19),
  ("librari", Posting.one 5),
  ("line", Posting.one 19),
  ("list", Posting.many [11, 12, 13, 14, 15]),
  ("locat", Posting.many [1, 12]),
  ("log", Posting.many [1, 19]),
  ("logger", Posting.many [1, 19]),
  ("maya", Posting.one 12),
  ("mayadcc", Posting.many [0, 1, 8]),
  ("messag", Posting.one 19),
  ("modul", Posting.many [20, 21]),
  ("msg", Posting.one 19),
  ("necessari", Posting.many [1, 3]),
  ("none", Posting.many [3, 19]),
  ("nuke", Posting.one 11),
  ("nuke_vers", Posting.one 11),
  ("nukedcc", Posting.many [0, 1, 8]),
  ("object", Posting.many [3, 19]),
  ("output", Posting.one 19),
  ("output_buffer_to_fil", Posting.one 19),
  ("packag", Posting.many [20, 21]),
  ("page", Posting.one 20),
  ("painter", Posting.one 14),
  ("painter_vers", Posting.one 14),
  ("param", Posting.many [1, 11, 12, 13, 14, 15, 19]),
  ("parent", Posting.one 19),
  ("path", Posting.many [1, 11, 12, 13, 14, 15]),
  ("photoshop", Posting.one 12),
  ("photoshop_vers", Posting.one 12),
  ("photoshopdcc", Posting.many [0, 1, 8]),
  ("platform", Posting.one 3),
  ("pyside2", Posting.many [3, 19]),
  ("qmetaobject", Posting.many [3, 19]),
  ("qset", Posting.one 3),
  ("qtcore", Posting.many [3, 19]),
  ("qtextedit", Posting.one 19),
  ("qtwidget", Posting.one 19),
  ("reload", Posting.one 1),
  ("search", Posting.one 20),
  ("set", Posting.one 19),
  ("set_debug_level", Posting.one 19),
  ("set_info_level", Posting.one 19),
  ("specif", Posting.one 3),
  ("staticmetaobject", Posting.many [3, 19]),
  ("store", Posting.one 19),
  ("str", Posting.many [1, 11, 12, 13, 14, 15, 19]),
  ("submodul", Posting.many [0, 1]),
  ("subpackag", Posting.one 21),
  ("substanc", Posting.many [13, 14]),
  ("substancedesignerdcc", Posting.many [0, 1, 8]),
  ("substancepainterdcc", Posting.many [0, 1, 8]),
  ("sys", Posting.one 1),
  ("updat", Posting.many [0, 1, 2]),
  ("update_path", Posting.one 1),
  ("used", Posting.one 5),
  ("user", Posting.one 12),
  ("util", Posting.many [0, 1]),
  ("where", Posting.many [1, 12]),
  ("whether", Posting.one 1),
  ("widget", Posting.many [0, 1]),
  ("window", Posting.one 3),
  ("write", Posting.one 19),
  ("write_error", Posting.one 19),
  ("write_ok", Posting.one 19),
  ("zbrush", Posting.one 15),
  ("zbrush_vers", Posting.one 15),
  ("zbrushdcc", Posting.many [0, 1, 8])]

def titles : List String := ["artellapipe package", "artellapipe.launcher package", "artellapipe.launcher.core package", "artellapipe.launcher.core.config module", "artellapipe.launcher.core.dccselector module", "artellapipe.launcher.core.defines module", "artellapipe.launcher.core.launcher module", "artellapipe.launcher.core.updater module", "artellapipe.launcher.dccs package", "artellapipe.launcher.dccs.houdinidcc module", "artellapipe.launcher.dccs.mayadcc module", "artellapipe.launcher.dccs.nukedcc module", "artellapipe.launcher.dccs.photoshopdcc module", "artellapipe.launcher.dccs.substancedesignerdcc module", "artellapipe.launcher.dccs.substancepainterdcc module", "artellapipe.launcher.dccs.zbrushdcc module", "artellapipe.launcher.utils package", "artellapipe.launcher.utils.download module", "artellapipe.launcher.widgets package", "artellapipe.launcher.widgets.console module", "Welcome to artellapipe-core documentation!", "artellapipe"]

def titleterms : List (String × Posting) := [
  ("artellapip", Posting.many [0, 1, 2, 3, 4, 5, 6, 7, 8, 9, 10, 11, 12, 13, 14, 15, 16, 17, 18, 19, 20, 21]),
  ("config", Posting.one 3),
  ("consol", Posting.one 19),
  ("content", Posting.many [0, 1, 2, 8, 16, 18]),
  ("core", Posting.many [2, 3, 4, 5, 6, 7, 20]),
  ("dcc", Posting.many [8, 9, 10, 11, 12, 13, 14, 15]),
  ("dccselector", Posting.one 4),
  ("defin", Posting.one 5),
  ("document", Posting.one 20),
  ("download", Posting.one 17),
  ("houdinidcc", Posting.one 9),
  ("indic", Posting.one 20),
  ("launcher", Posting.many [1, 2, 3, 4, 5, 6, 7, 8, 9, 10, 11, 12, 13, 14, 15, 16, 17, 18, 19]),
  ("mayadcc", Posting.one 10),
  ("modul", Posting.many [0, 1, 2, 3, 4, 5, 6, 7, 8, 9, 10, 11, 12, 13, 14, 15, 16, 17, 18, 19]),
  ("nukedcc", Posting.one 11),
  ("packag", Posting.many [0, 1, 2, 8, 16, 18]),
  ("photoshopdcc", Posting.one 12),
  ("submodul", Posting.many [2, 8, 16, 18]),
  ("subpackag", Posting.many [0, 1]),
  ("substancedesignerdcc", Posting.one 13),
  ("substancepainterdcc", Posting.one 14),
  ("tabl", Posting.one 20),
  ("updat", Posting.one 7),
  ("util", Posting.many [16, 17]),
  ("welcom", Posting.one 20),
  ("widget", Posting.many [18, 19]),
  ("zbrushdcc", Posting.one 15)]

/-- The whole index bundled as one value, mirroring the object literal passed
to `Search.setIndex` field by field. -/
structure SphinxIndex where
  docnames : List String
  envversion : List (String × Nat)
  filenames : List String
  objects : List (String × List (String × ObjEntry))
  objnames : List (String × (String × String × String))
  objtypes : List (String × String)
  terms : List (String × Posting)
  titles : List String
  titleterms : List (String × Posting)
deriving DecidableEq, Repr

/-- The embedded index of `searchindex.js` as a single constant. -/
def searchIndex : SphinxIndex :=
  ⟨docnames, envversion, filenames, objects, objnames, objtypes, terms, titles, titleterms⟩

/-- Modelled from the spec: the index is a "static lookup table ... consumed by
a client-side search widget" (the widget itself ships with Sphinx and is not
part of this repository).  A term query returns the posting stored for the
term and hands the index back unchanged. -/
def queryTerm (idx : SphinxIndex) (t : String) : Option Posting × SphinxIndex :=
  (idx.terms.lookup t, idx)

/-- Modelled from the spec: looking up the document name of a document ID
returns the `docnames` entry and hands the index back unchanged. -/
def queryDocname (idx : SphinxIndex) (d : Nat) : Option String × SphinxIndex :=
  (idx.docnames[d]?, idx)

/-- The document IDs posted by a posting. -/
def Posting.docs : Posting → List Nat
  | .one d => [d]
  | .many ds => ds

/-- Is a list of document IDs strictly increasing? -/
def strictIncr : List Nat → Bool
  | a :: b :: t => decide (a < b) && strictIncr (b :: t)
  | _ => true

/-- Is a posting strictly increasing (single-ID postings trivially are)? -/
def Posting.sortedStrict : Posting → Bool
  | .one _ => true
  | .many ds => strictIncr ds

/-- Look up the entry documented for `name` under module path `modPath` in the
`objects` map. -/
def objLookup (modPath name : String) : Option ObjEntry :=
  (objects.lookup modPath).bind fun es => es.lookup name

/-- Does `objects` document `name` under `modPath` as a function (object-type
code 4, which `objtypes` resolves to `py:function`)? -/
def documentsFunction (modPath name : String) : Bool :=
  match objLookup modPath name with
  | some e => e.objType == 4
  | none => false

/-- The seven per-DCC module documents named by the spec: Houdini, Maya, Nuke,
Photoshop, Substance Designer, Substance Painter, ZBrush. -/
def dccModulesClaimed : List String :=
  ["artellapipe.launcher.dccs.houdinidcc", "artellapipe.launcher.dccs.mayadcc",
   "artellapipe.launcher.dccs.nukedcc", "artellapipe.launcher.dccs.photoshopdcc",
   "artellapipe.launcher.dccs.substancedesignerdcc",
   "artellapipe.launcher.dccs.substancepainterdcc", "artellapipe.launcher.dccs.zbrushdcc"]

/-- The five per-DCC modules that have entries in the `objects` map. -/
def dccModulesDocumented : List String :=
  ["artellapipe.launcher.dccs.nukedcc", "artellapipe.launcher.dccs.photoshopdcc",
   "artellapipe.launcher.dccs.substancedesignerdcc",
   "artellapipe.launcher.dccs.substancepainterdcc", "artellapipe.launcher.dccs.zbrushdcc"]


/-- JSON insignificant whitespace (RFC 8259): space, tab, line feed, carriage return. -/
def isJsonWs (c : Char) : Bool := c == ' ' || c == '\t' || c == '\n' || c == '\r'

/-- Drop leading JSON whitespace. -/
def skipWs : List Char → List Char
  | [] => []
  | c :: cs => if isJsonWs c then skipWs cs else c :: cs

/-- ASCII hexadecimal digit. -/
def isHex (c : Char) : Bool :=
  c.isDigit || decide (97 ≤ c.toNat ∧ c.toNat ≤ 102) || decide (65 ≤ c.toNat ∧ c.toNat ≤ 70)

/-- First character of an ECMAScript identifier (ASCII subset). -/
def isIdentStart (c : Char) : Bool := c.isAlpha || c == '_' || c == '$'

/-- Subsequent character of an ECMAScript identifier (ASCII subset). -/
def isIdentChar (c : Char) : Bool := isIdentStart c || c.isDigit

/-- Consume the body of a JSON string after the opening quote, up to and
including the closing quote; validates escape sequences and rejects raw
control characters. -/
def strBody : List Char → Option (List Char)
  | [] => none
  | '"' :: cs => some cs
  | '\\' :: 'u' :: a :: b :: c :: d :: cs =>
      if isHex a && isHex b && isHex c && isHex d then strBody cs else none
  | '\\' :: e :: cs =>
      if e == '"' || e == '\\' || e == '/' || e == 'b' || e == 'f' || e == 'n'
          || e == 'r' || e == 't' then strBody cs else none
  | '\\' :: [] => none
  | c :: cs => if c.toNat < 32 then none else strBody cs

/-- Consume an expected literal character sequence. -/
def dropLit : List Char → List Char → Option (List Char)
  | [], cs => some cs
  | l :: ls, c :: cs => if l == c then dropLit ls cs else none
  | _ :: _, [] => none

/-- Consume one or more decimal digits. -/
def digits1 : List Char → Option (List Char)
  | c :: rest => if c.isDigit then some (rest.dropWhile Char.isDigit) else none
  | [] => none

/-- Consume the optional fraction and exponent parts of a JSON number. -/
def fracExp (cs : List Char) : Option (List Char) :=
  let afterFrac : Option (List Char) :=
    match cs with
    | '.' :: r => digits1 r
    | _ => some cs
  match afterFrac with
  | none => none
  | some cs2 =>
      match cs2 with
      | e :: r =>
          if e == 'e' || e == 'E' then
            match r with
            | s :: r2 => if s == '+' || s == '-' then digits1 r2 else digits1 r
            | [] => none
          else some cs2
      | [] => some []

/-- Consume a JSON number: optional minus, integer part with no leading zero,
optional fraction, optional exponent. -/
def parseNumber (cs : List Char) : Option (List Char) :=
  let cs1 := match cs with | '-' :: r => r | _ => cs
  match cs1 with
  | '0' :: r => fracExp r
  | c :: r => if c.isDigit then fracExp (r.dropWhile Char.isDigit) else none
  | [] => none

mutual

/-- Consume one JSON value (RFC 8259).  With `js` set, object keys may also be
ECMAScript identifiers, as in a JavaScript object literal. -/
def pVal (js : Bool) : Nat → List Char → Option (List Char)
  | 0, _ => none
  | fuel + 1, cs =>
    match skipWs cs with
    | [] => none
    | c :: r =>
      if c.toNat == 123 then pObjFirst js fuel r
      else if c.toNat == 91 then pArrFirst js fuel r
      else if c == '"' then strBody r
      else if c == 't' then dropLit [ 'r', 'u', 'e'] r
      else if c == 'f' then dropLit [ 'a', 'l', 's', 'e'] r
      else if c == 'n' then dropLit [ 'u', 'l', 'l'] r
      else parseNumber (c :: r)

/-- Consume the remainder of an object after its opening brace. -/
def pObjFirst (js : Bool) : Nat → List Char → Option (List Char)
  | 0, _ => none
  | fuel + 1, cs =>
    match skipWs cs with
    | [] => none
    | c :: r =>
      if c.toNat == 125 then some r
      else
        match pMember js fuel (c :: r) with
        | some r2 => pObjRest js fuel r2
        | none => none

/-- Consume one `key : value` member of an object. -/
def pMember (js : Bool) : Nat → List Char → Option (List Char)
  | 0, _ => none
  | fuel + 1, cs =>
    match skipWs cs with
    | [] => none
    | c :: r =>
      if c == '"' then
        match strBody r with
        | some r2 => pColonVal js fuel r2
        | none => none
      else if js && isIdentStart c then pColonVal js fuel (r.dropWhile isIdentChar)
      else none

/-- Consume the colon and value following an object key. -/
def pColonVal (js : Bool) : Nat → List Char → Option (List Char)
  | 0, _ => none
  | fuel + 1, cs =>
    match skipWs cs with
    | ':' :: r => pVal js fuel r
    | _ => none

/-- Consume `, member`* and the closing brace of an object. -/
def pObjRest (js : Bool) : Nat → List Char → Option (List Char)
  | 0, _ => none
  | fuel + 1, cs =>
    match skipWs cs with
    | [] => none
    | c :: r =>
      if c.toNat == 125 then some r
      else if c == ',' then
        match pMember js fuel r with
        | some r2 => pObjRest js fuel r2
        | none => none
      else none

/-- Consume the remainder of an array after its opening bracket. -/
def pArrFirst (js : Bool) : Nat → List Char → Option (List Char)
  | 0, _ => none
  | fuel + 1, cs =>
    match skipWs cs with
    | [] => none
    | c :: r =>
      if c.toNat == 93 then some r
      else
        match pVal js fuel (c :: r) with
        | some r2 => pArrRest js fuel r2
        | none => none

/-- Consume `, value`* and the closing bracket of an array. -/
def pArrRest (js : Bool) : Nat → List Char → Option (List Char)
  | 0, _ => none
  | fuel + 1, cs =>
    match skipWs cs with
    | [] => none
    | c :: r =>
      if c.toNat == 93 then some r
      else if c == ',' then
        match pVal js fuel r with
        | some r2 => pArrRest js fuel r2
        | none => none
      else none

end

/-- A string holds exactly one valid value followed only by whitespace, within
`fuel` recursive-descent calls.  Each call strictly decreases `fuel`, so any
large enough bound (for instance ten times the input length) identifies the
valid strings. -/
def validValue (js : Bool) (fuel : Nat) (s : String) : Bool :=
  match pVal js fuel s.data with
  | some rest => (skipWs rest).isEmpty
  | none => false

/-- Strict JSON validity (RFC 8259) within a fuel bound: a string is valid JSON
exactly when some fuel makes this true. -/
def jsonValid (fuel : Nat) (s : String) : Bool := validValue false fuel s

/-- JavaScript object-literal validity, JSON extended with ECMAScript
identifier keys, within a fuel bound. -/
def jsObjectLiteralValid (fuel : Nat) (s : String) : Bool := validValue true fuel s

/-- A string is valid JSON when some fuel bound makes the checker accept it
(more fuel never turns acceptance into rejection, so this is the fuel-free
notion of validity). -/
def IsValidJson (s : String) : Prop := ∃ fuel, jsonValid fuel s = true

/-- A string is a valid JavaScript object-literal value when some fuel bound
makes the extended checker accept it. -/
def IsValidJsObjectLiteral (s : String) : Prop := ∃ fuel, jsObjectLiteralValid fuel s = true

/-- Exact source text of the argument of `Search.setIndex` in
`searchindex.js` (the whole file except the `Search.setIndex(` wrapper). -/
def payloadText : String :=
  "\x7bdocnames:[\"artellapipe\",\"artellapipe.launcher\",\"artellapipe.launcher.core\",\"artellapipe.launcher.core.config\",\"artellapipe.launcher.core.dccselector\",\"artellapipe.launcher.core.defines\",\"artellapipe.launcher.core.launcher\",\"artellapipe.launcher.core.updater\",\"artellapipe.launcher.dccs\",\"artellapipe.launcher.dccs.houdinidcc\",\"artellapipe.launcher.dccs.mayadcc\",\"artellapipe.launcher.dccs.nukedcc\",\"artellapipe.launcher.dccs.photoshopdcc\",\"artellapipe.launcher.dccs.substancedesignerdcc\",\"artellapipe.launcher.dccs.substancepainterdcc\",\"artellapipe.launcher.dccs.zbrushdcc\",\"artellapipe.launcher.utils\",\"artellapipe.launcher.utils.download\",\"artellapipe.launcher.widgets\",\"artellapipe.launcher.widgets.console\",\"index\",\"modules\"],envversion:\x7b\"sphinx.domains.c\":1,\"sphinx.domains.changeset\":1,\"sphinx.domains.citation\":1,\"sphinx.domains.cpp\":1,\"sphinx.domains.javascript\":1,\"sphinx.domains.math\":2,\"sphinx.domains.python\":1,\"sphinx.domains.rst\":1,\"sphinx.domains.std\":1,\"sphinx.ext.todo\":2,sphinx:56\x7d,filenames:[\"artellapipe.rst\",\"artellapipe.launcher.rst\",\"artellapipe.launcher.core.rst\",\"artellapipe.launcher.core.config.rst\",\"artellapipe.launcher.core.dccselector.rst\",\"artellapipe.launcher.core.defines.rst\",\"artellapipe.launcher.core.launcher.rst\",\"artellapipe.launcher.core.updater.rst\",\"artellapipe.launcher.dccs.rst\",\"artellapipe.launcher.dccs.houdinidcc.rst\",\"artellapipe.launcher.dccs.mayadcc.rst\",\"artellapipe.launcher.dccs.nukedcc.rst\",\"artellapipe.launcher.dccs.photoshopdcc.rst\",\"artellapipe.launcher.dccs.substancedesignerdcc.rst\",\"artellapipe.launcher.dccs.substancepainterdcc.rst\",\"artellapipe.launcher.dccs.zbrushdcc.rst\",\"artellapipe.launcher.utils.rst\",\"artellapipe.launcher.utils.download.rst\",\"artellapipe.launcher.widgets.rst\",\"artellapipe.launcher.widgets.console.rst\",\"index.rst\",\"modules.rst\"],objects:\x7b\"\":\x7bartellapipe:[0,0,0,\"-\"]\x7d,\"artellapipe.launcher\":\x7bcore:[2,0,0,\"-\"],create_logger_directory:[1,4,1,\"\"],dccs:[8,0,0,\"-\"],get_dccs_path:[1,4,1,\"\"],get_launcher_config_path:[1,4,1,\"\"],get_logging_config:[1,4,1,\"\"],get_updater_config_path:[1,4,1,\"\"],init:[1,4,1,\"\"],update_paths:[1,4,1,\"\"],utils:[16,0,0,\"-\"],widgets:[18,0,0,\"-\"]\x7d,\"artellapipe.launcher.core\":\x7bconfig:[3,0,0,\"-\"],defines:[5,0,0,\"-\"]\x7d,\"artellapipe.launcher.core.config\":\x7bArtellaLauncherConfig:[3,1,1,\"\"],create_config:[3,4,1,\"\"],get_system_config_directory:[3,4,1,\"\"]\x7d,\"artellapipe.launcher.core.config.ArtellaLauncherConfig\":\x7bENVIRONMENTS:[3,2,1,\"\"],EXECUTABLES:[3,2,1,\"\"],edit:[3,3,1,\"\"],staticMetaObject:[3,2,1,\"\"]\x7d,\"artellapipe.launcher.dccs\":\x7bnukedcc:[11,0,0,\"-\"],photoshopdcc:[12,0,0,\"-\"],substancedesignerdcc:[13,0,0,\"-\"],substancepainterdcc:[14,0,0,\"-\"],zbrushdcc:[15,0,0,\"-\"]\x7d,\"artellapipe.launcher.dccs.nukedcc\":\x7bget_executables_from_installation_path:[11,4,1,\"\"],get_installation_paths:[11,4,1,\"\"]\x7d,\"artellapipe.launcher.dccs.photoshopdcc\":\x7bget_executables_from_installation_path:[12,4,1,\"\"],get_installation_paths:[12,4,1,\"\"]\x7d,\"artellapipe.launcher.dccs.substancedesignerdcc\":\x7bget_executables_from_installation_path:[13,4,1,\"\"],get_installation_paths:[13,4,1,\"\"]\x7d,\"artellapipe.launcher.dccs.substancepainterdcc\":\x7bget_executables_from_installation_path:[14,4,1,\"\"],get_installation_paths:[14,4,1,\"\"]\x7d,\"artellapipe.launcher.dccs.zbrushdcc\":\x7bget_executables_from_installation_path:[15,4,1,\"\"],get_installation_paths:[15,4,1,\"\"]\x7d,\"artellapipe.launcher.widgets\":\x7bconsole:[19,0,0,\"-\"]\x7d,\"artellapipe.launcher.widgets.console\":\x7bArtellaLauncherConsole:[19,1,1,\"\"]\x7d,\"artellapipe.launcher.widgets.console.ArtellaLauncherConsole\":\x7boutput_buffer_to_file:[19,3,1,\"\"],set_debug_level:[19,3,1,\"\"],set_info_level:[19,3,1,\"\"],staticMetaObject:[19,2,1,\"\"],write:[19,3,1,\"\"],write_error:[19,3,1,\"\"],write_ok:[19,3,1,\"\"]\x7d,artellapipe:\x7blauncher:[1,0,0,\"-\"]\x7d\x7d,objnames:\x7b\"0\":[\"py\",\"module\",\"Python module\"],\"1\":[\"py\",\"class\",\"Python class\"],\"2\":[\"py\",\"attribute\",\"Python attribute\"],\"3\":[\"py\",\"method\",\"Python method\"],\"4\":[\"py\",\"function\",\"Python function\"]\x7d,objtypes:\x7b\"0\":\"py:module\",\"1\":\"py:class\",\"2\":\"py:attribute\",\"3\":\"py:method\",\"4\":\"py:function\"\x7d,terms:\x7b\"class\":[3,19],\"default\":[1,3],\"function\":[11,12,13,14,15],\"new\":19,\"return\":[1,3,11,12,13,14,15],add:[1,19],all:5,applic:3,artella:[1,3,19],artellalauncherconfig:3,artellalauncherconsol:19,as_path:3,base:[3,19],bool:1,buffer:19,comput:12,config:[0,1,2],config_fil:3,configur:[1,3],consol:[0,1,3,18],constant:5,construct:3,contain:[3,5,11,12,13,14,15,19],content:[20,21],core:[0,1],creat:[1,3],create_config:3,create_logger_directori:1,dcc:[0,1],dcc_install_path:3,dccselector:[0,1,2],debug:19,defin:[0,1,2],definit:5,design:13,designer_vers:13,directori:[1,3],do_reload:1,download:[0,1,16],edit:3,element:3,environ:3,error:19,execut:[3,11,12,13,14,15],fals:[1,3],file:[1,3,19],filenam:3,filepath:19,folder:[11,12,13,14,15],from:[3,11,12,13,14,15],get_dccs_path:1,get_executables_from_installation_path:[11,12,13,14,15],get_installation_path:[11,12,13,14,15],get_launcher_config_path:1,get_logging_config:1,get_system_config_directori:3,get_updater_config_path:1,green:19,handl:[11,12,13,14,15],houdinidcc:[0,1,8],implement:[3,19],index:20,info:19,init:1,initi:[0,1],instal:[11,12,13,14,15],installation_path:[11,12,13,14,15],its:[11,12,13,14,15],launcher:[0,21],launcher_nam:3,level:19,librari:5,line:19,list:[11,12,13,14,15],locat:[1,12],log:[1,19],logger:[1,19],maya:12,mayadcc:[0,1,8],messag:19,modul:[20,21],msg:19,necessari:[1,3],none:[3,19],nuke:11,nuke_vers:11,nukedcc:[0,1,8],object:[3,19],output:19,output_buffer_to_fil:19,packag:[20,21],page:20,painter:14,painter_vers:14,param:[1,11,12,13,14,15,19],parent:19,path:[1,11,12,13,14,15],photoshop:12,photoshop_vers:12,photoshopdcc:[0,1,8],platform:3,pyside2:[3,19],qmetaobject:[3,19],qset:3,qtcore:[3,19],qtextedit:19,qtwidget:19,reload:1,search:20,set:19,set_debug_level:19,set_info_level:19,specif:3,staticmetaobject:[3,19],store:19,str:[1,11,12,13,14,15,19],submodul:[0,1],subpackag:21,substanc:[13,14],substancedesignerdcc:[0,1,8],substancepainterdcc:[0,1,8],sys:1,updat:[0,1,2],update_path:1,used:5,user:12,util:[0,1],where:[1,12],whether:1,widget:[0,1],window:3,write:19,write_error:19,write_ok:19,zbrush:15,zbrush_vers:15,zbrushdcc:[0,1,8]\x7d,titles:[\"artellapipe package\",\"artellapipe.launcher package\",\"artellapipe.launcher.core package\",\"artellapipe.launcher.core.config module\",\"artellapipe.launcher.core.dccselector module\",\"artellapipe.launcher.core.defines module\",\"artellapipe.launcher.core.launcher module\",\"artellapipe.launcher.core.updater module\",\"artellapipe.launcher.dccs package\",\"artellapipe.launcher.dccs.houdinidcc module\",\"artellapipe.launcher.dccs.mayadcc module\",\"artellapipe.launcher.dccs.nukedcc module\",\"artellapipe.launcher.dccs.photoshopdcc module\",\"artellapipe.launcher.dccs.substancedesignerdcc module\",\"artellapipe.launcher.dccs.substancepainterdcc module\",\"artellapipe.launcher.dccs.zbrushdcc module\",\"artellapipe.launcher.utils package\",\"artellapipe.launcher.utils.download module\",\"artellapipe.launcher.widgets package\",\"artellapipe.launcher.widgets.console module\",\"Welcome to artellapipe-core documentation!\",\"artellapipe\"],titleterms:\x7bartellapip:[0,1,2,3,4,5,6,7,8,9,10,11,12,13,14,15,16,17,18,19,20,21],config:3,consol:19,content:[0,1,2,8,16,18],core:[2,3,4,5,6,7,20],dcc:[8,9,10,11,12,13,14,15],dccselector:4,defin:5,document:20,download:17,houdinidcc:9,indic:20,launcher:[1,2,3,4,5,6,7,8,9,10,11,12,13,14,15,16,17,18,19],mayadcc:10,modul:[0,1,2,3,4,5,6,7,8,9,10,11,12,13,14,15,16,17,18,19],nukedcc:11,packag:[0,1,2,8,16,18],photoshopdcc:12,submodul:[2,8,16,18],subpackag:[0,1],substancedesignerdcc:13,substancepainterdcc:14,tabl:20,updat:7,util:[16,17],welcom:20,widget:[18,19],zbrushdcc:15\x7d\x7d"

/-- Claim C1: every document ID posted under any lexical term of `terms` and
any title term of `titleterms` — whether stored as a single integer or as a
list — is a valid index into `docnames`, so looking up the document name of a
posted ID never goes out of bounds. -/
theorem c1_posting_ids_in_range :
    ∀ p ∈ terms ++ titleterms, ∀ d ∈ p.2.docs, d < docnames.length := by decide

/-- Witness for C1 at the term `as_path`, whose posting is document ID 3. -/
theorem c1_witness : 3 < docnames.length :=
  c1_posting_ids_in_range ("as_path", Posting.one 3) (by decide) 3 (by decide)

/-- Claim C2: every entry of the `objects` map carries an object-type code that
is a key of both `objtypes` and `objnames` (one of the codes 0 through 4) and a
document ID that is a valid index into `docnames`, so every documented object
cross-reference resolves to an existing type and an existing document. -/
theorem c2_objects_wellformed :
    ∀ m ∈ objects, ∀ e ∈ m.2,
      (objtypes.lookup (toString e.2.objType)).isSome = true ∧
      (objnames.lookup (toString e.2.objType)).isSome = true ∧
      e.2.objType < 5 ∧
      e.2.docId < docnames.length := by decide

/-- Witness for C2 at the `launcher` submodule entry of the `artellapipe`
package, `launcher:[1,0,0,"-"]`. -/
theorem c2_witness :
    (objtypes.lookup (toString (ObjEntry.mk 1 0 0 "-").objType)).isSome = true ∧
    (objnames.lookup (toString (ObjEntry.mk 1 0 0 "-").objType)).isSome = true ∧
    (ObjEntry.mk 1 0 0 "-").objType < 5 ∧
    (ObjEntry.mk 1 0 0 "-").docId < docnames.length :=
  c2_objects_wellformed ("artellapipe", [("launcher", ObjEntry.mk 1 0 0 "-")]) (by decide)
    ("launcher", ObjEntry.mk 1 0 0 "-") (by decide)

/-- Claim C3 counterexample: the Houdini module is one of the seven per-DCC
modules, yet the `objects` map has no entry at all under its path (the same
holds for the Maya module), so the claimed universal statement — and in
particular its "this holds for the Maya and Houdini modules" part — is false. -/
theorem c3_counterexample :
    "artellapipe.launcher.dccs.houdinidcc" ∈ dccModulesClaimed ∧
    objects.lookup "artellapipe.launcher.dccs.houdinidcc" = none ∧
    ¬ (∀ m ∈ dccModulesClaimed,
        documentsFunction m "get_installation_paths" = true ∧
        documentsFunction m "get_executables_from_installation_path" = true) := by decide

/-- Claim C3 as amended: the five per-DCC modules with entries in `objects`
(nukedcc, photoshopdcc, substancedesignerdcc, substancepainterdcc, zbrushdcc)
each document both a `get_installation_paths` and a
`get_executables_from_installation_path` function, while the Houdini and Maya
modules have no `objects` entries at all. -/
theorem c3_amended :
    (dccModulesDocumented.all fun m =>
        documentsFunction m "get_installation_paths" &&
        documentsFunction m "get_executables_from_installation_path") = true ∧
    objects.lookup "artellapipe.launcher.dccs.houdinidcc" = none ∧
    objects.lookup "artellapipe.launcher.dccs.mayadcc" = none := by decide

/-- Helper for C4: whatever the fuel bound, the RFC 8259 checker rejects the
`Search.setIndex` argument text, because its first object key `docnames` is an
unquoted identifier where JSON requires a quoted string or a closing brace
(rejection happens at the second character, so it is independent of fuel). -/
theorem jsonValid_payloadText_eq_false : ∀ fuel, jsonValid fuel payloadText = false
  | 0 => rfl
  | 1 => rfl
  | 2 => rfl
  | _ + 3 => rfl

/-- Claim C4 counterexample: the argument text of `Search.setIndex` is not
valid JSON. -/
theorem c4_counterexample : ¬ IsValidJson payloadText := by
  rintro ⟨fuel, h⟩
  rw [jsonValid_payloadText_eq_false fuel] at h
  exact Bool.false_ne_true h

/-- Claim C4 as amended: the payload passed to `Search.setIndex` is a single
well-formed JavaScript object-literal value (JSON extended with identifier
keys — not strict JSON, as its keys are unquoted), and the embedded index is a
constant: term lookup and document-name lookup return their result and hand
every field of the index back unchanged, so the same query always returns the
same result. -/
theorem c4_amended :
    IsValidJsObjectLiteral payloadText ∧
    (∀ t, (queryTerm searchIndex t).2 = searchIndex) ∧
    (∀ d, (queryDocname searchIndex d).2 = searchIndex) :=
  ⟨⟨100000, by decide⟩, fun _ => rfl, fun _ => rfl⟩

/-- Claim C5: `objects` records `edit` as a `py:method` of the class
`ArtellaLauncherConfig` in the config module's document, records `write`,
`write_error` and `write_ok` as `py:method`s of the class
`ArtellaLauncherConsole` in the console module's document, and records both
classes themselves with the object-type code resolving to `py:class`. -/
theorem c5_config_console_objects :
    objLookup "artellapipe.launcher.core.config" "ArtellaLauncherConfig"
      = some (ObjEntry.mk 3 1 1 "") ∧
    objLookup "artellapipe.launcher.widgets.console" "ArtellaLauncherConsole"
      = some (ObjEntry.mk 19 1 1 "") ∧
    objtypes.lookup "1" = some "py:class" ∧
    objLookup "artellapipe.launcher.core.config.ArtellaLauncherConfig" "edit"
      = some (ObjEntry.mk 3 3 1 "") ∧
    objLookup "artellapipe.launcher.widgets.console.ArtellaLauncherConsole" "write"
      = some (ObjEntry.mk 19 3 1 "") ∧
    objLookup "artellapipe.launcher.widgets.console.ArtellaLauncherConsole" "write_error"
      = some (ObjEntry.mk 19 3 1 "") ∧
    objLookup "artellapipe.launcher.widgets.console.ArtellaLauncherConsole" "write_ok"
      = some (ObjEntry.mk 19 3 1 "") ∧
    objtypes.lookup "3" = some "py:method" ∧
    docnames[3]? = some "artellapipe.launcher.core.config" ∧
    docnames[19]? = some "artellapipe.launcher.widgets.console" := by decide

/-- Claim C6: `terms` posts `do_reload` to document 1 (the
`artellapipe.launcher` module document), posts `as_path` to document 3 (the
config module document), and posts `fals` to exactly those two documents. -/
theorem c6_boolean_default_terms :
    terms.lookup "do_reload" = some (Posting.one 1) ∧
    docnames[1]? = some "artellapipe.launcher" ∧
    terms.lookup "as_path" = some (Posting.one 3) ∧
    docnames[3]? = some "artellapipe.launcher.core.config" ∧
    terms.lookup "fals" = some (Posting.many [1, 3]) := by decide

/-- Claim C7: each of the seven per-DCC module documents (Houdini, Maya, Nuke,
Photoshop, Substance Designer, Substance Painter, ZBrush) is present in the
`docnames` array. -/
theorem c7_all_seven_dcc_docs_present :
    ∀ m ∈ dccModulesClaimed, m ∈ docnames := by decide

/-- Witness for C7 at the Maya module document. -/
theorem c7_witness : "artellapipe.launcher.dccs.mayadcc" ∈ docnames :=
  c7_all_seven_dcc_docs_present "artellapipe.launcher.dccs.mayadcc" (by decide)

/-- Claim C8: `filenames` and `docnames` have the same length, and `filenames`
is exactly the image of `docnames` under appending the suffix `.rst`. -/
theorem c8_filenames_are_docnames_rst :
    filenames.length = docnames.length ∧
    filenames = docnames.map (fun d => d ++ ".rst") := by decide

/-- Claim C9: every list-shaped posting of `terms` and `titleterms` is strictly
increasing (sorted, no duplicate document IDs), so each posting denotes a set
of documents, and the entries of `docnames` are pairwise distinct, so document
names identify documents uniquely. -/
theorem c9_postings_sorted_docnames_distinct :
    ((terms ++ titleterms).all fun p => p.2.sortedStrict) = true ∧
    docnames.Nodup := by decide

/-- Claim C10: `objnames` and `objtypes` have exactly the key set `"0"`-`"4"`,
and for every code the `objtypes` value is the first component of the
`objnames` value, a colon, and the second component — e.g. code `"4"` maps to
`py:function` and `["py", "function", "Python function"]`. -/
theorem c10_objnames_objtypes_consistent :
    objnames.map Prod.fst = ["0", "1", "2", "3", "4"] ∧
    objtypes.map Prod.fst = ["0", "1", "2", "3", "4"] ∧
    objtypes = objnames.map (fun p => (p.1, p.2.1 ++ ":" ++ p.2.2.1)) ∧
    objtypes.lookup "4" = some "py:function" ∧
    objnames.lookup "4" = some ("py", "function", "Python function") := by decide
